import Mathlib

/-!
Verification of the ThePaye deduction engine (`src/utils/payeLogic.js`,
`calculatePAYE`) and its history ledger (`src/utils/HistoryContext.js`,
`HistoryProvider.addToHistory`), shallowly embedded over exact rational
arithmetic.  JavaScript's `parseFloat(x.toFixed(2))` is modelled by
`round2`: rounding to 2 decimal places, half away from zero (the ECMA
`toFixed` algorithm negates first, so ties round away from zero).
-/

namespace ThePaye

set_option maxRecDepth 100000

/-- Round a rational to the nearest integer, ties away from zero
(the exact-arithmetic semantics of ECMAScript `toFixed(0)`). -/
def roundHalfAwayFromZero (x : ℚ) : ℤ :=
  if 0 ≤ x then ⌊x + 1/2⌋ else -⌊-x + 1/2⌋

/-- Round to 2 decimal places, half away from zero: the model of
JavaScript `parseFloat(v.toFixed(2))` in the source. -/
def round2 (x : ℚ) : ℚ :=
  (roundHalfAwayFromZero (100 * x) : ℚ) / 100

/-- The argument record of `calculatePAYE` (spec: `CalculationInput`).
`housingType` is destructured by the source but never read. -/
structure CalcInput where
  grossPay : ℚ
  benefits : ℚ
  pension : ℚ
  allowableDeductions : ℚ
  housed : Bool
  housingType : String
  housingValue : ℚ
  rent : ℚ
  ignoreBenefits : Bool
  use2025Tiers : Bool
  deductTier2 : Bool
  deductAHL : Bool
deriving DecidableEq

/-- The spec's input invariant: all monetary fields are non-negative
(finiteness is implicit in ℚ). -/
def ValidInput (p : CalcInput) : Prop :=
  0 ≤ p.grossPay ∧ 0 ≤ p.benefits ∧ 0 ≤ p.pension ∧
    0 ≤ p.allowableDeductions ∧ 0 ≤ p.housingValue ∧ 0 ≤ p.rent

instance (p : CalcInput) : Decidable (ValidInput p) := by
  unfold ValidInput; infer_instance

/-- The object returned by `calculatePAYE` (spec: `CalculationResult`).
Field names follow the source; the spec's aliases are
`contributionTierAmount` = `nssf`, `healthLevyAmount` = `nhif`,
`housingLevyAmount` = `ahl`, `incomeTaxAmount` = `paye`,
`reliefApplied` = `personalReliefUsed`.  Note there is no
`housingType` field. -/
structure CalcResult where
  grossPay : ℚ
  benefits : ℚ
  pension : ℚ
  allowableDeductions : ℚ
  housed : Bool
  housingValue : ℚ
  rent : ℚ
  taxableBenefits : ℚ
  taxableIncome : ℚ
  paye : ℚ
  nssf : ℚ
  nhif : ℚ
  ahl : ℚ
  totalDeductions : ℚ
  netPay : ℚ
  personalReliefUsed : ℚ
deriving DecidableEq

/-- Step 1 of the source, before its `toFixed(2)`: taxable non-cash
benefits (5000 threshold when `ignoreBenefits`, plus employer housing
net of rent when housed with positive housing value). -/
def taxableBenefitsRaw (ignoreBenefits housed : Bool) (benefits housingValue rent : ℚ) : ℚ :=
  let base := if ignoreBenefits then max 0 (benefits - 5000) else benefits
  if housed ∧ 0 < housingValue then base + max 0 (housingValue - rent) else base

/-- `NSSF_LEL` in the source: lower earning limit. -/
def NSSF_LEL : ℚ := 6000

/-- `NSSF_BWC` in the source: basic wage ceiling for Tier I. -/
def NSSF_BWC : ℚ := 18000

/-- The 6% contribution rate constant of the source. -/
def nssfContributionPct : ℚ := 6 / 100

/-- Step 2 of the source, before its `toFixed(2)`: tiered NSSF
contribution (Tier I up to 6000, optional Tier II up to 18000), or the
flat legacy 200. -/
def nssfRaw (use2025Tiers deductTier2 : Bool) (grossPay : ℚ) : ℚ :=
  if use2025Tiers then
    min grossPay NSSF_LEL * nssfContributionPct +
      (if deductTier2 ∧ NSSF_LEL < grossPay then
        (min grossPay NSSF_BWC - NSSF_LEL) * nssfContributionPct
      else 0)
  else 200

/-- Step 3 of the source, before its `toFixed(2)`: the NHIF/SHIF band
table, an if-chain on `grossPay`. -/
def nhifRaw (grossPay : ℚ) : ℚ :=
  if grossPay ≤ 5999 then 150
  else if grossPay ≤ 7999 then 300
  else if grossPay ≤ 11999 then 400
  else if grossPay ≤ 14999 then 500
  else if grossPay ≤ 19999 then 600
  else if grossPay ≤ 24999 then 750
  else if grossPay ≤ 29999 then 850
  else if grossPay ≤ 34999 then 900
  else if grossPay ≤ 39999 then 950
  else if grossPay ≤ 44999 then 1000
  else if grossPay ≤ 49999 then 1100
  else if grossPay ≤ 59999 then 1200
  else if grossPay ≤ 69999 then 1300
  else if grossPay ≤ 79999 then 1400
  else if grossPay ≤ 89999 then 1500
  else if grossPay ≤ 99999 then 1600
  else 1700

/-- Step 4 of the source, before its `toFixed(2)`: the Affordable
Housing Levy, 1.5% of gross pay when enabled. -/
def ahlRaw (deductAHL : Bool) (grossPay : ℚ) : ℚ :=
  if deductAHL then grossPay * (15 / 1000) else 0

/-- `KRA_MONTHLY_RELIEF` in the source. -/
def KRA_MONTHLY_RELIEF : ℚ := 2400

/-- Step 6 of the source, before relief and `toFixed(2)`: the
progressive bracket schedule applied to taxable income, written with
the source's literal bracket-width constants. -/
def taxBeforeRelief (taxableIncome : ℚ) : ℚ :=
  if taxableIncome ≤ 24000 then taxableIncome * (10 / 100)
  else if taxableIncome ≤ 32333 then
    24000 * (10 / 100) + (taxableIncome - 24000) * (25 / 100)
  else if taxableIncome ≤ 500000 then
    24000 * (10 / 100) + 8333 * (25 / 100) + (taxableIncome - 32333) * (30 / 100)
  else if taxableIncome ≤ 800000 then
    24000 * (10 / 100) + 8333 * (25 / 100) + 467667 * (30 / 100) +
      (taxableIncome - 500000) * (325 / 1000)
  else
    24000 * (10 / 100) + 8333 * (25 / 100) + 467667 * (30 / 100) +
      300000 * (325 / 1000) + (taxableIncome - 800000) * (35 / 100)

/-- The deduction engine: `calculatePAYE` of `src/utils/payeLogic.js`,
stage by stage, with each stage's `parseFloat(v.toFixed(2))` modelled
by `round2`.  (The source's first, commented-out-by-overwrite taxable
income computation is dead code and is not modelled; only the final
`incomeSubjectToPAYE` assignment reaches the result.) -/
def calculatePAYE (p : CalcInput) : CalcResult :=
  let taxableBenefits :=
    round2 (taxableBenefitsRaw p.ignoreBenefits p.housed p.benefits p.housingValue p.rent)
  let nssf := round2 (nssfRaw p.use2025Tiers p.deductTier2 p.grossPay)
  let nhif := round2 (nhifRaw p.grossPay)
  let ahl := round2 (ahlRaw p.deductAHL p.grossPay)
  let incomeSubjectToPAYE :=
    p.grossPay + taxableBenefits - min p.pension 30000 - nssf - nhif - ahl -
      p.allowableDeductions
  let taxableIncome := round2 (max 0 incomeSubjectToPAYE)
  let paye := round2 (max 0 (taxBeforeRelief taxableIncome - KRA_MONTHLY_RELIEF))
  let totalDeductions :=
    round2 (paye + nssf + nhif + ahl + p.pension + p.allowableDeductions)
  let netPay := round2 (p.grossPay - totalDeductions)
  { grossPay := round2 p.grossPay
    benefits := round2 p.benefits
    pension := round2 p.pension
    allowableDeductions := round2 p.allowableDeductions
    housed := p.housed
    housingValue := round2 p.housingValue
    rent := round2 p.rent
    taxableBenefits := taxableBenefits
    taxableIncome := taxableIncome
    paye := paye
    nssf := nssf
    nhif := nhif
    ahl := ahl
    totalDeductions := totalDeductions
    netPay := netPay
    personalReliefUsed := KRA_MONTHLY_RELIEF }

/-- The C1 input: gross pay 50000, everything else 0, all four policy
toggles on. -/
def c1Input : CalcInput :=
  { grossPay := 50000, benefits := 0, pension := 0, allowableDeductions := 0
    housed := false, housingType := "1", housingValue := 0, rent := 0
    ignoreBenefits := true, use2025Tiers := true, deductTier2 := true
    deductAHL := true }

/-- A valid input whose deductions exceed gross pay (pension 50000
against gross 10000), exhibiting a negative net pay. -/
def pensionHeavyInput : CalcInput :=
  { grossPay := 10000, benefits := 0, pension := 50000, allowableDeductions := 0
    housed := false, housingType := "1", housingValue := 0, rent := 0
    ignoreBenefits := false, use2025Tiers := false, deductTier2 := false
    deductAHL := false }

/-- A valid input with gross pay 10000 and all toggles off: its tax
before relief (940) is below the 2400 relief. -/
def lowPayInput : CalcInput :=
  { grossPay := 10000, benefits := 0, pension := 0, allowableDeductions := 0
    housed := false, housingType := "1", housingValue := 0, rent := 0
    ignoreBenefits := false, use2025Tiers := false, deductTier2 := false
    deductAHL := false }

/-- Gross pay 29999, just below the 850-levy band's upper bound, all
toggles off and every other monetary input 0. -/
def bandEdgeInput : CalcInput :=
  { grossPay := 29999, benefits := 0, pension := 0, allowableDeductions := 0
    housed := false, housingType := "1", housingValue := 0, rent := 0
    ignoreBenefits := false, use2025Tiers := false, deductTier2 := false
    deductAHL := false }

/-- An entry of the history ledger: the appended result plus the
`createdAt` timestamp stamped by `addToHistory` (`{ ...result,
timestamp: new Date().toISOString() }`).  Time is modelled by an
abstract monotone clock value. -/
structure HistoryEntry where
  result : CalcResult
  timestamp : ℕ
deriving DecidableEq

/-- Pair a result with its append-time clock value. -/
def mkEntry (rt : CalcResult × ℕ) : HistoryEntry :=
  { result := rt.1, timestamp := rt.2 }

/-- `HistoryProvider.addToHistory`: stamps the result with the current
time and puts the new entry at the head of the list
(`setHistory((prev) => [newResultWithTimestamp, ...prev])`). -/
def addToHistory (result : CalcResult) (now : ℕ) (history : List HistoryEntry) :
    List HistoryEntry :=
  { result := result, timestamp := now } :: history

/-- The ledger state after a session's appends, applied in
chronological order starting from the empty history. -/
def runAppends (appends : List (CalcResult × ℕ)) : List HistoryEntry :=
  appends.foldl (fun h rt => addToHistory rt.1 rt.2 h) []

/-- The single-threaded wall clock never runs backwards across the
appends of a session. -/
def ClockMonotone (appends : List (CalcResult × ℕ)) : Prop :=
  (appends.map Prod.snd).Pairwise (· ≤ ·)

unseal Rat.add Rat.mul Rat.inv Rat.sub in
/-- C1: for gross pay 50000 with all toggles on and every other
monetary input 0, the engine returns contribution 1080.00, health levy
1200.00, housing levy 750.00, taxable income 46970.00, and income tax
equal to the marginal-bracket tax on 46970 minus the 2400 relief. -/
theorem c1_bracket_example :
    (calculatePAYE c1Input).nssf = 1080 ∧
    (calculatePAYE c1Input).nhif = 1200 ∧
    (calculatePAYE c1Input).ahl = 750 ∧
    (calculatePAYE c1Input).taxableIncome = 46970 ∧
    (calculatePAYE c1Input).paye =
      (24000 * (10/100) + 8333 * (25/100) + (46970 - 32333) * (30/100)) - 2400 := by
  decide

lemma roundHalfAwayFromZero_mono {x y : ℚ} (h : x ≤ y) :
    roundHalfAwayFromZero x ≤ roundHalfAwayFromZero y := by
  unfold roundHalfAwayFromZero
  split_ifs with hx hy hy
  · exact Int.floor_le_floor (by linarith)
  · linarith
  · have h1 : (0:ℤ) ≤ ⌊y + 1/2⌋ := Int.le_floor.mpr (by push_cast; linarith)
    have h2 : (0:ℤ) ≤ ⌊-x + 1/2⌋ := Int.le_floor.mpr (by push_cast; linarith)
    omega
  · have h3 : ⌊-y + 1/2⌋ ≤ ⌊-x + 1/2⌋ := Int.floor_le_floor (by linarith)
    omega

lemma round2_mono {x y : ℚ} (h : x ≤ y) : round2 x ≤ round2 y := by
  unfold round2
  have h1 := roundHalfAwayFromZero_mono (show 100 * x ≤ 100 * y by linarith)
  have h2 : ((roundHalfAwayFromZero (100 * x) : ℚ)) ≤ (roundHalfAwayFromZero (100 * y) : ℚ) := by
    exact_mod_cast h1
  linarith

lemma round2_nonneg {x : ℚ} (h : 0 ≤ x) : 0 ≤ round2 x := by
  unfold round2 roundHalfAwayFromZero
  rw [if_pos (by linarith : (0:ℚ) ≤ 100 * x)]
  have h1 : (0:ℤ) ≤ ⌊100 * x + 1/2⌋ := Int.le_floor.mpr (by push_cast; linarith)
  positivity

lemma roundHalfAwayFromZero_intCast (n : ℤ) : roundHalfAwayFromZero (n : ℚ) = n := by
  unfold roundHalfAwayFromZero
  have hhalf : ⌊(1/2 : ℚ)⌋ = 0 := by
    rw [Int.floor_eq_zero_iff]
    constructor <;> norm_num
  split_ifs with h
  · rw [add_comm, Int.floor_add_int, hhalf, zero_add]
  · have hc : (-(n : ℚ)) = ((-n : ℤ) : ℚ) := by push_cast; ring
    rw [hc, add_comm, Int.floor_add_int, hhalf, zero_add, neg_neg]

lemma round2_hundredth (k : ℤ) : round2 ((k : ℚ) / 100) = (k : ℚ) / 100 := by
  unfold round2
  have h1 : (100 : ℚ) * ((k : ℚ) / 100) = (k : ℚ) := by field_simp
  rw [h1, roundHalfAwayFromZero_intCast]

lemma round2_round2 (x : ℚ) : round2 (round2 x) = round2 x :=
  round2_hundredth (roundHalfAwayFromZero (100 * x))

lemma round2_intCast (n : ℤ) : round2 (n : ℚ) = (n : ℚ) := by
  unfold round2
  have h1 : (100 : ℚ) * (n : ℚ) = ((100 * n : ℤ) : ℚ) := by push_cast; ring
  rw [h1, roundHalfAwayFromZero_intCast]
  push_cast
  ring

lemma round2_zero : round2 0 = 0 := by
  exact_mod_cast round2_intCast 0

/-- C2: for every valid input, taxable income is the 2-dp rounding of
`max 0 (grossPay + taxableBenefits - min(pension, 30000) - contribution
- health levy - housing levy - other deductions)`; pension only counts
up to its 30000 cap and the result is never negative. -/
theorem c2_taxable_income_formula (p : CalcInput) (_h : ValidInput p) :
    (calculatePAYE p).taxableIncome =
      round2 (max 0 (p.grossPay + (calculatePAYE p).taxableBenefits -
        min p.pension 30000 - (calculatePAYE p).nssf - (calculatePAYE p).nhif -
        (calculatePAYE p).ahl - p.allowableDeductions)) ∧
    0 ≤ (calculatePAYE p).taxableIncome := by
  constructor
  · rfl
  · exact round2_nonneg (le_max_left 0 _)

unseal Rat.add Rat.mul Rat.inv Rat.sub in
theorem c2_taxable_income_formula_witness :
    ValidInput c1Input ∧
    ((calculatePAYE c1Input).taxableIncome =
      round2 (max 0 (c1Input.grossPay + (calculatePAYE c1Input).taxableBenefits -
        min c1Input.pension 30000 - (calculatePAYE c1Input).nssf -
        (calculatePAYE c1Input).nhif - (calculatePAYE c1Input).ahl -
        c1Input.allowableDeductions)) ∧
    0 ≤ (calculatePAYE c1Input).taxableIncome) :=
  ⟨by decide, c2_taxable_income_formula c1Input (by decide)⟩

/-- C3: for every valid input, total deductions sum income tax,
contribution, health levy, housing levy, the full (uncapped) pension
and the full other deductions, and net pay is gross pay minus total
deductions, both rounded to 2 decimals with no clamping (net pay can
go negative). -/
theorem c3_totals_and_net_pay (p : CalcInput) (_h : ValidInput p) :
    (calculatePAYE p).totalDeductions =
      round2 ((calculatePAYE p).paye + (calculatePAYE p).nssf + (calculatePAYE p).nhif +
        (calculatePAYE p).ahl + p.pension + p.allowableDeductions) ∧
    (calculatePAYE p).netPay = round2 (p.grossPay - (calculatePAYE p).totalDeductions) :=
  ⟨rfl, rfl⟩

unseal Rat.add Rat.mul Rat.inv Rat.sub in
theorem c3_totals_and_net_pay_witness :
    ValidInput pensionHeavyInput ∧
    ((calculatePAYE pensionHeavyInput).totalDeductions =
      round2 ((calculatePAYE pensionHeavyInput).paye + (calculatePAYE pensionHeavyInput).nssf +
        (calculatePAYE pensionHeavyInput).nhif + (calculatePAYE pensionHeavyInput).ahl +
        pensionHeavyInput.pension + pensionHeavyInput.allowableDeductions) ∧
    (calculatePAYE pensionHeavyInput).netPay =
      round2 (pensionHeavyInput.grossPay - (calculatePAYE pensionHeavyInput).totalDeductions)) ∧
    (calculatePAYE pensionHeavyInput).netPay < 0 :=
  ⟨by decide, c3_totals_and_net_pay pensionHeavyInput (by decide), by decide⟩

/-- C9: the result always reports `personalReliefUsed = 2400`, even
when the bracket tax before relief is below 2400, in which case the
income tax is floored at 0 while the reported relief stays 2400. -/
theorem c9_relief_reported_constant (p : CalcInput) :
    (calculatePAYE p).personalReliefUsed = 2400 ∧
    (taxBeforeRelief ((calculatePAYE p).taxableIncome) < 2400 →
      (calculatePAYE p).paye = 0) := by
  refine ⟨rfl, fun h => ?_⟩
  show round2 (max 0 (taxBeforeRelief ((calculatePAYE p).taxableIncome) -
    KRA_MONTHLY_RELIEF)) = 0
  rw [max_eq_left (by unfold KRA_MONTHLY_RELIEF; linarith)]
  exact round2_zero

unseal Rat.add Rat.mul Rat.inv Rat.sub in
theorem c9_relief_reported_constant_witness :
    taxBeforeRelief ((calculatePAYE lowPayInput).taxableIncome) < 2400 ∧
    (calculatePAYE lowPayInput).personalReliefUsed = 2400 ∧
    (calculatePAYE lowPayInput).paye = 0 :=
  ⟨by decide, (c9_relief_reported_constant lowPayInput).1,
    (c9_relief_reported_constant lowPayInput).2 (by decide)⟩

/-- C10: `housingType` has no influence on the engine: changing only
that field leaves the entire result record unchanged (and the result
record has no `housingType` field at all). -/
theorem c10_housing_type_irrelevant (p : CalcInput) (ht : String) :
    calculatePAYE { p with housingType := ht } = calculatePAYE p := rfl

lemma nhifRaw_band1 {g : ℚ} (h2 : g ≤ 5999) : nhifRaw g = 150 := by
  unfold nhifRaw
  rw [if_pos h2]

lemma nhifRaw_band2 {g : ℚ} (h1 : 5999 < g) (h2 : g ≤ 7999) :
    nhifRaw g = 300 := by
  unfold nhifRaw
  rw [if_neg (not_le.mpr (by linarith)), if_pos h2]

lemma nhifRaw_band3 {g : ℚ} (h1 : 7999 < g) (h2 : g ≤ 11999) :
    nhifRaw g = 400 := by
  unfold nhifRaw
  rw [if_neg (not_le.mpr (by linarith)), if_neg (not_le.mpr (by linarith)), if_pos h2]

lemma nhifRaw_band4 {g : ℚ} (h1 : 11999 < g) (h2 : g ≤ 14999) :
    nhifRaw g = 500 := by
  unfold nhifRaw
  rw [if_neg (not_le.mpr (by linarith)), if_neg (not_le.mpr (by linarith)), if_neg (not_le.mpr (by linarith)), if_pos h2]

lemma nhifRaw_band5 {g : ℚ} (h1 : 14999 < g) (h2 : g ≤ 19999) :
    nhifRaw g = 600 := by
  unfold nhifRaw
  rw [if_neg (not_le.mpr (by linarith)), if_neg (not_le.mpr (by linarith)), if_neg (not_le.mpr (by linarith)), if_neg (not_le.mpr (by linarith)), if_pos h2]

lemma nhifRaw_band6 {g : ℚ} (h1 : 19999 < g) (h2 : g ≤ 24999) :
    nhifRaw g = 750 := by
  unfold nhifRaw
  rw [if_neg (not_le.mpr (by linarith)), if_neg (not_le.mpr (by linarith)), if_neg (not_le.mpr (by linarith)), if_neg (not_le.mpr (by linarith)), if_neg (not_le.mpr (by linarith)), if_pos h2]

lemma nhifRaw_band7 {g : ℚ} (h1 : 24999 < g) (h2 : g ≤ 29999) :
    nhifRaw g = 850 := by
  unfold nhifRaw
  rw [if_neg (not_le.mpr (by linarith)), if_neg (not_le.mpr (by linarith)), if_neg (not_le.mpr (by linarith)), if_neg (not_le.mpr (by linarith)), if_neg (not_le.mpr (by linarith)), if_neg (not_le.mpr (by linarith)), if_pos h2]

lemma nhifRaw_band8 {g : ℚ} (h1 : 29999 < g) (h2 : g ≤ 34999) :
    nhifRaw g = 900 := by
  unfold nhifRaw
  rw [if_neg (not_le.mpr (by linarith)), if_neg (not_le.mpr (by linarith)), if_neg (not_le.mpr (by linarith)), if_neg (not_le.mpr (by linarith)), if_neg (not_le.mpr (by linarith)), if_neg (not_le.mpr (by linarith)), if_neg (not_le.mpr (by linarith)), if_pos h2]

lemma nhifRaw_band9 {g : ℚ} (h1 : 34999 < g) (h2 : g ≤ 39999) :
    nhifRaw g = 950 := by
  unfold nhifRaw
  rw [if_neg (not_le.mpr (by linarith)), if_neg (not_le.mpr (by linarith)), if_neg (not_le.mpr (by linarith)), if_neg (not_le.mpr (by linarith)), if_neg (not_le.mpr (by linarith)), if_neg (not_le.mpr (by linarith)), if_neg (not_le.mpr (by linarith)), if_neg (not_le.mpr (by linarith)), if_pos h2]

lemma nhifRaw_band10 {g : ℚ} (h1 : 39999 < g) (h2 : g ≤ 44999) :
    nhifRaw g = 1000 := by
  unfold nhifRaw
  rw [if_neg (not_le.mpr (by linarith)), if_neg (not_le.mpr (by linarith)), if_neg (not_le.mpr (by linarith)), if_neg (not_le.mpr (by linarith)), if_neg (not_le.mpr (by linarith)), if_neg (not_le.mpr (by linarith)), if_neg (not_le.mpr (by linarith)), if_neg (not_le.mpr (by linarith)), if_neg (not_le.mpr (by linarith)), if_pos h2]

lemma nhifRaw_band11 {g : ℚ} (h1 : 44999 < g) (h2 : g ≤ 49999) :
    nhifRaw g = 1100 := by
  unfold nhifRaw
  rw [if_neg (not_le.mpr (by linarith)), if_neg (not_le.mpr (by linarith)), if_neg (not_le.mpr (by linarith)), if_neg (not_le.mpr (by linarith)), if_neg (not_le.mpr (by linarith)), if_neg (not_le.mpr (by linarith)), if_neg (not_le.mpr (by linarith)), if_neg (not_le.mpr (by linarith)), if_neg (not_le.mpr (by linarith)), if_neg (not_le.mpr (by linarith)), if_pos h2]

lemma nhifRaw_band12 {g : ℚ} (h1 : 49999 < g) (h2 : g ≤ 59999) :
    nhifRaw g = 1200 := by
  unfold nhifRaw
  rw [if_neg (not_le.mpr (by linarith)), if_neg (not_le.mpr (by linarith)), if_neg (not_le.mpr (by linarith)), if_neg (not_le.mpr (by linarith)), if_neg (not_le.mpr (by linarith)), if_neg (not_le.mpr (by linarith)), if_neg (not_le.mpr (by linarith)), if_neg (not_le.mpr (by linarith)), if_neg (not_le.mpr (by linarith)), if_neg (not_le.mpr (by linarith)), if_neg (not_le.mpr (by linarith)), if_pos h2]

lemma nhifRaw_band13 {g : ℚ} (h1 : 59999 < g) (h2 : g ≤ 69999) :
    nhifRaw g = 1300 := by
  unfold nhifRaw
  rw [if_neg (not_le.mpr (by linarith)), if_neg (not_le.mpr (by linarith)), if_neg (not_le.mpr (by linarith)), if_neg (not_le.mpr (by linarith)), if_neg (not_le.mpr (by linarith)), if_neg (not_le.mpr (by linarith)), if_neg (not_le.mpr (by linarith)), if_neg (not_le.mpr (by linarith)), if_neg (not_le.mpr (by linarith)), if_neg (not_le.mpr (by linarith)), if_neg (not_le.mpr (by linarith)), if_neg (not_le.mpr (by linarith)), if_pos h2]

lemma nhifRaw_band14 {g : ℚ} (h1 : 69999 < g) (h2 : g ≤ 79999) :
    nhifRaw g = 1400 := by
  unfold nhifRaw
  rw [if_neg (not_le.mpr (by linarith)), if_neg (not_le.mpr (by linarith)), if_neg (not_le.mpr (by linarith)), if_neg (not_le.mpr (by linarith)), if_neg (not_le.mpr (by linarith)), if_neg (not_le.mpr (by linarith)), if_neg (not_le.mpr (by linarith)), if_neg (not_le.mpr (by linarith)), if_neg (not_le.mpr (by linarith)), if_neg (not_le.mpr (by linarith)), if_neg (not_le.mpr (by linarith)), if_neg (not_le.mpr (by linarith)), if_neg (not_le.mpr (by linarith)), if_pos h2]

lemma nhifRaw_band15 {g : ℚ} (h1 : 79999 < g) (h2 : g ≤ 89999) :
    nhifRaw g = 1500 := by
  unfold nhifRaw
  rw [if_neg (not_le.mpr (by linarith)), if_neg (not_le.mpr (by linarith)), if_neg (not_le.mpr (by linarith)), if_neg (not_le.mpr (by linarith)), if_neg (not_le.mpr (by linarith)), if_neg (not_le.mpr (by linarith)), if_neg (not_le.mpr (by linarith)), if_neg (not_le.mpr (by linarith)), if_neg (not_le.mpr (by linarith)), if_neg (not_le.mpr (by linarith)), if_neg (not_le.mpr (by linarith)), if_neg (not_le.mpr (by linarith)), if_neg (not_le.mpr (by linarith)), if_neg (not_le.mpr (by linarith)), if_pos h2]

lemma nhifRaw_band16 {g : ℚ} (h1 : 89999 < g) (h2 : g ≤ 99999) :
    nhifRaw g = 1600 := by
  unfold nhifRaw
  rw [if_neg (not_le.mpr (by linarith)), if_neg (not_le.mpr (by linarith)), if_neg (not_le.mpr (by linarith)), if_neg (not_le.mpr (by linarith)), if_neg (not_le.mpr (by linarith)), if_neg (not_le.mpr (by linarith)), if_neg (not_le.mpr (by linarith)), if_neg (not_le.mpr (by linarith)), if_neg (not_le.mpr (by linarith)), if_neg (not_le.mpr (by linarith)), if_neg (not_le.mpr (by linarith)), if_neg (not_le.mpr (by linarith)), if_neg (not_le.mpr (by linarith)), if_neg (not_le.mpr (by linarith)), if_neg (not_le.mpr (by linarith)), if_pos h2]

lemma nhifRaw_band17 {g : ℚ} (h1 : 99999 < g) : nhifRaw g = 1700 := by
  unfold nhifRaw
  rw [if_neg (not_le.mpr (by linarith)), if_neg (not_le.mpr (by linarith)), if_neg (not_le.mpr (by linarith)), if_neg (not_le.mpr (by linarith)), if_neg (not_le.mpr (by linarith)), if_neg (not_le.mpr (by linarith)), if_neg (not_le.mpr (by linarith)), if_neg (not_le.mpr (by linarith)), if_neg (not_le.mpr (by linarith)), if_neg (not_le.mpr (by linarith)), if_neg (not_le.mpr (by linarith)), if_neg (not_le.mpr (by linarith)), if_neg (not_le.mpr (by linarith)), if_neg (not_le.mpr (by linarith)), if_neg (not_le.mpr (by linarith)), if_neg (not_le.mpr (by linarith))]

lemma nhifRaw_ge_band17 {g : ℚ} (h1 : 99999 < g) : 1700 ≤ nhifRaw g :=
  (nhifRaw_band17 h1).ge

lemma nhifRaw_ge_band16 {g : ℚ} (h1 : 89999 < g) : 1600 ≤ nhifRaw g := by
  rcases le_or_lt g 99999 with h2 | h2
  · exact (nhifRaw_band16 h1 h2).ge
  · exact le_trans (by norm_num) (nhifRaw_ge_band17 h2)

lemma nhifRaw_ge_band15 {g : ℚ} (h1 : 79999 < g) : 1500 ≤ nhifRaw g := by
  rcases le_or_lt g 89999 with h2 | h2
  · exact (nhifRaw_band15 h1 h2).ge
  · exact le_trans (by norm_num) (nhifRaw_ge_band16 h2)

lemma nhifRaw_ge_band14 {g : ℚ} (h1 : 69999 < g) : 1400 ≤ nhifRaw g := by
  rcases le_or_lt g 79999 with h2 | h2
  · exact (nhifRaw_band14 h1 h2).ge
  · exact le_trans (by norm_num) (nhifRaw_ge_band15 h2)

lemma nhifRaw_ge_band13 {g : ℚ} (h1 : 59999 < g) : 1300 ≤ nhifRaw g := by
  rcases le_or_lt g 69999 with h2 | h2
  · exact (nhifRaw_band13 h1 h2).ge
  · exact le_trans (by norm_num) (nhifRaw_ge_band14 h2)

lemma nhifRaw_ge_band12 {g : ℚ} (h1 : 49999 < g) : 1200 ≤ nhifRaw g := by
  rcases le_or_lt g 59999 with h2 | h2
  · exact (nhifRaw_band12 h1 h2).ge
  · exact le_trans (by norm_num) (nhifRaw_ge_band13 h2)

lemma nhifRaw_ge_band11 {g : ℚ} (h1 : 44999 < g) : 1100 ≤ nhifRaw g := by
  rcases le_or_lt g 49999 with h2 | h2
  · exact (nhifRaw_band11 h1 h2).ge
  · exact le_trans (by norm_num) (nhifRaw_ge_band12 h2)

lemma nhifRaw_ge_band10 {g : ℚ} (h1 : 39999 < g) : 1000 ≤ nhifRaw g := by
  rcases le_or_lt g 44999 with h2 | h2
  · exact (nhifRaw_band10 h1 h2).ge
  · exact le_trans (by norm_num) (nhifRaw_ge_band11 h2)

lemma nhifRaw_ge_band9 {g : ℚ} (h1 : 34999 < g) : 950 ≤ nhifRaw g := by
  rcases le_or_lt g 39999 with h2 | h2
  · exact (nhifRaw_band9 h1 h2).ge
  · exact le_trans (by norm_num) (nhifRaw_ge_band10 h2)

lemma nhifRaw_ge_band8 {g : ℚ} (h1 : 29999 < g) : 900 ≤ nhifRaw g := by
  rcases le_or_lt g 34999 with h2 | h2
  · exact (nhifRaw_band8 h1 h2).ge
  · exact le_trans (by norm_num) (nhifRaw_ge_band9 h2)

lemma nhifRaw_ge_band7 {g : ℚ} (h1 : 24999 < g) : 850 ≤ nhifRaw g := by
  rcases le_or_lt g 29999 with h2 | h2
  · exact (nhifRaw_band7 h1 h2).ge
  · exact le_trans (by norm_num) (nhifRaw_ge_band8 h2)

lemma nhifRaw_ge_band6 {g : ℚ} (h1 : 19999 < g) : 750 ≤ nhifRaw g := by
  rcases le_or_lt g 24999 with h2 | h2
  · exact (nhifRaw_band6 h1 h2).ge
  · exact le_trans (by norm_num) (nhifRaw_ge_band7 h2)

lemma nhifRaw_ge_band5 {g : ℚ} (h1 : 14999 < g) : 600 ≤ nhifRaw g := by
  rcases le_or_lt g 19999 with h2 | h2
  · exact (nhifRaw_band5 h1 h2).ge
  · exact le_trans (by norm_num) (nhifRaw_ge_band6 h2)

lemma nhifRaw_ge_band4 {g : ℚ} (h1 : 11999 < g) : 500 ≤ nhifRaw g := by
  rcases le_or_lt g 14999 with h2 | h2
  · exact (nhifRaw_band4 h1 h2).ge
  · exact le_trans (by norm_num) (nhifRaw_ge_band5 h2)

lemma nhifRaw_ge_band3 {g : ℚ} (h1 : 7999 < g) : 400 ≤ nhifRaw g := by
  rcases le_or_lt g 11999 with h2 | h2
  · exact (nhifRaw_band3 h1 h2).ge
  · exact le_trans (by norm_num) (nhifRaw_ge_band4 h2)

lemma nhifRaw_ge_band2 {g : ℚ} (h1 : 5999 < g) : 300 ≤ nhifRaw g := by
  rcases le_or_lt g 7999 with h2 | h2
  · exact (nhifRaw_band2 h1 h2).ge
  · exact le_trans (by norm_num) (nhifRaw_ge_band3 h2)

lemma nhifRaw_ge_band1 (g : ℚ) : 150 ≤ nhifRaw g := by
  rcases le_or_lt g 5999 with h2 | h2
  · exact (nhifRaw_band1 h2).ge
  · exact le_trans (by norm_num) (nhifRaw_ge_band2 h2)

lemma round2_nhifRaw (g : ℚ) : round2 (nhifRaw g) = nhifRaw g := by
  rcases le_or_lt g 5999 with h1 | h1
  · rw [nhifRaw_band1 h1]
    exact_mod_cast round2_intCast 150
  rcases le_or_lt g 7999 with h2 | h2
  · rw [nhifRaw_band2 h1 h2]
    exact_mod_cast round2_intCast 300
  rcases le_or_lt g 11999 with h3 | h3
  · rw [nhifRaw_band3 h2 h3]
    exact_mod_cast round2_intCast 400
  rcases le_or_lt g 14999 with h4 | h4
  · rw [nhifRaw_band4 h3 h4]
    exact_mod_cast round2_intCast 500
  rcases le_or_lt g 19999 with h5 | h5
  · rw [nhifRaw_band5 h4 h5]
    exact_mod_cast round2_intCast 600
  rcases le_or_lt g 24999 with h6 | h6
  · rw [nhifRaw_band6 h5 h6]
    exact_mod_cast round2_intCast 750
  rcases le_or_lt g 29999 with h7 | h7
  · rw [nhifRaw_band7 h6 h7]
    exact_mod_cast round2_intCast 850
  rcases le_or_lt g 34999 with h8 | h8
  · rw [nhifRaw_band8 h7 h8]
    exact_mod_cast round2_intCast 900
  rcases le_or_lt g 39999 with h9 | h9
  · rw [nhifRaw_band9 h8 h9]
    exact_mod_cast round2_intCast 950
  rcases le_or_lt g 44999 with h10 | h10
  · rw [nhifRaw_band10 h9 h10]
    exact_mod_cast round2_intCast 1000
  rcases le_or_lt g 49999 with h11 | h11
  · rw [nhifRaw_band11 h10 h11]
    exact_mod_cast round2_intCast 1100
  rcases le_or_lt g 59999 with h12 | h12
  · rw [nhifRaw_band12 h11 h12]
    exact_mod_cast round2_intCast 1200
  rcases le_or_lt g 69999 with h13 | h13
  · rw [nhifRaw_band13 h12 h13]
    exact_mod_cast round2_intCast 1300
  rcases le_or_lt g 79999 with h14 | h14
  · rw [nhifRaw_band14 h13 h14]
    exact_mod_cast round2_intCast 1400
  rcases le_or_lt g 89999 with h15 | h15
  · rw [nhifRaw_band15 h14 h15]
    exact_mod_cast round2_intCast 1500
  rcases le_or_lt g 99999 with h16 | h16
  · rw [nhifRaw_band16 h15 h16]
    exact_mod_cast round2_intCast 1600
  rw [nhifRaw_band17 h16]
  exact_mod_cast round2_intCast 1700

lemma nhifRaw_mono {g g' : ℚ} (h : g ≤ g') : nhifRaw g ≤ nhifRaw g' := by
  rcases le_or_lt g 5999 with h1 | h1
  · rw [nhifRaw_band1 h1]
    exact nhifRaw_ge_band1 g'
  rcases le_or_lt g 7999 with h2 | h2
  · rw [nhifRaw_band2 h1 h2]
    exact nhifRaw_ge_band2 (lt_of_lt_of_le h1 h)
  rcases le_or_lt g 11999 with h3 | h3
  · rw [nhifRaw_band3 h2 h3]
    exact nhifRaw_ge_band3 (lt_of_lt_of_le h2 h)
  rcases le_or_lt g 14999 with h4 | h4
  · rw [nhifRaw_band4 h3 h4]
    exact nhifRaw_ge_band4 (lt_of_lt_of_le h3 h)
  rcases le_or_lt g 19999 with h5 | h5
  · rw [nhifRaw_band5 h4 h5]
    exact nhifRaw_ge_band5 (lt_of_lt_of_le h4 h)
  rcases le_or_lt g 24999 with h6 | h6
  · rw [nhifRaw_band6 h5 h6]
    exact nhifRaw_ge_band6 (lt_of_lt_of_le h5 h)
  rcases le_or_lt g 29999 with h7 | h7
  · rw [nhifRaw_band7 h6 h7]
    exact nhifRaw_ge_band7 (lt_of_lt_of_le h6 h)
  rcases le_or_lt g 34999 with h8 | h8
  · rw [nhifRaw_band8 h7 h8]
    exact nhifRaw_ge_band8 (lt_of_lt_of_le h7 h)
  rcases le_or_lt g 39999 with h9 | h9
  · rw [nhifRaw_band9 h8 h9]
    exact nhifRaw_ge_band9 (lt_of_lt_of_le h8 h)
  rcases le_or_lt g 44999 with h10 | h10
  · rw [nhifRaw_band10 h9 h10]
    exact nhifRaw_ge_band10 (lt_of_lt_of_le h9 h)
  rcases le_or_lt g 49999 with h11 | h11
  · rw [nhifRaw_band11 h10 h11]
    exact nhifRaw_ge_band11 (lt_of_lt_of_le h10 h)
  rcases le_or_lt g 59999 with h12 | h12
  · rw [nhifRaw_band12 h11 h12]
    exact nhifRaw_ge_band12 (lt_of_lt_of_le h11 h)
  rcases le_or_lt g 69999 with h13 | h13
  · rw [nhifRaw_band13 h12 h13]
    exact nhifRaw_ge_band13 (lt_of_lt_of_le h12 h)
  rcases le_or_lt g 79999 with h14 | h14
  · rw [nhifRaw_band14 h13 h14]
    exact nhifRaw_ge_band14 (lt_of_lt_of_le h13 h)
  rcases le_or_lt g 89999 with h15 | h15
  · rw [nhifRaw_band15 h14 h15]
    exact nhifRaw_ge_band15 (lt_of_lt_of_le h14 h)
  rcases le_or_lt g 99999 with h16 | h16
  · rw [nhifRaw_band16 h15 h16]
    exact nhifRaw_ge_band16 (lt_of_lt_of_le h15 h)
  rw [nhifRaw_band17 h16]
  exact nhifRaw_ge_band17 (lt_of_lt_of_le h16 h)

lemma nssfRaw_mono (u d : Bool) {g g' : ℚ} (h : g ≤ g') :
    nssfRaw u d g ≤ nssfRaw u d g' := by
  unfold nssfRaw nssfContributionPct
  have hm1 : min g NSSF_LEL ≤ min g' NSSF_LEL := min_le_min h le_rfl
  have hm2 : min g NSSF_BWC ≤ min g' NSSF_BWC := min_le_min h le_rfl
  split_ifs with h1 h2 h3 h3
  · linarith
  · exact absurd ⟨h2.1, lt_of_lt_of_le h2.2 h⟩ h3
  · have hb : NSSF_LEL ≤ min g' NSSF_BWC :=
      le_min (le_of_lt h3.2) (by unfold NSSF_LEL NSSF_BWC; norm_num)
    linarith
  · linarith
  · exact le_refl 200

/-- C5: the health levy is the fixed band table of `grossPay` (≤5999 →
150, …, else 1700), exactly one band applying to any non-negative
gross pay, and it depends on no other input field. -/
theorem c5_health_levy_bands (p : CalcInput) (_h : 0 ≤ p.grossPay) :
    ((p.grossPay ≤ 5999 → (calculatePAYE p).nhif = 150) ∧
     (5999 < p.grossPay → p.grossPay ≤ 7999 → (calculatePAYE p).nhif = 300) ∧
     (7999 < p.grossPay → p.grossPay ≤ 11999 → (calculatePAYE p).nhif = 400) ∧
     (11999 < p.grossPay → p.grossPay ≤ 14999 → (calculatePAYE p).nhif = 500) ∧
     (14999 < p.grossPay → p.grossPay ≤ 19999 → (calculatePAYE p).nhif = 600) ∧
     (19999 < p.grossPay → p.grossPay ≤ 24999 → (calculatePAYE p).nhif = 750) ∧
     (24999 < p.grossPay → p.grossPay ≤ 29999 → (calculatePAYE p).nhif = 850) ∧
     (29999 < p.grossPay → p.grossPay ≤ 34999 → (calculatePAYE p).nhif = 900) ∧
     (34999 < p.grossPay → p.grossPay ≤ 39999 → (calculatePAYE p).nhif = 950) ∧
     (39999 < p.grossPay → p.grossPay ≤ 44999 → (calculatePAYE p).nhif = 1000) ∧
     (44999 < p.grossPay → p.grossPay ≤ 49999 → (calculatePAYE p).nhif = 1100) ∧
     (49999 < p.grossPay → p.grossPay ≤ 59999 → (calculatePAYE p).nhif = 1200) ∧
     (59999 < p.grossPay → p.grossPay ≤ 69999 → (calculatePAYE p).nhif = 1300) ∧
     (69999 < p.grossPay → p.grossPay ≤ 79999 → (calculatePAYE p).nhif = 1400) ∧
     (79999 < p.grossPay → p.grossPay ≤ 89999 → (calculatePAYE p).nhif = 1500) ∧
     (89999 < p.grossPay → p.grossPay ≤ 99999 → (calculatePAYE p).nhif = 1600) ∧
     (99999 < p.grossPay → (calculatePAYE p).nhif = 1700)) ∧
    (∀ q : CalcInput, q.grossPay = p.grossPay →
      (calculatePAYE q).nhif = (calculatePAYE p).nhif) := by
  have key : ∀ r : CalcInput, (calculatePAYE r).nhif = nhifRaw r.grossPay :=
    fun r => round2_nhifRaw r.grossPay
  refine ⟨⟨?_, ?_, ?_, ?_, ?_, ?_, ?_, ?_, ?_, ?_, ?_, ?_, ?_, ?_, ?_, ?_, ?_⟩,
    fun q hq => ?_⟩
  · intro h2
    rw [key p]
    exact nhifRaw_band1 h2
  · intro h1 h2
    rw [key p]
    exact nhifRaw_band2 h1 h2
  · intro h1 h2
    rw [key p]
    exact nhifRaw_band3 h1 h2
  · intro h1 h2
    rw [key p]
    exact nhifRaw_band4 h1 h2
  · intro h1 h2
    rw [key p]
    exact nhifRaw_band5 h1 h2
  · intro h1 h2
    rw [key p]
    exact nhifRaw_band6 h1 h2
  · intro h1 h2
    rw [key p]
    exact nhifRaw_band7 h1 h2
  · intro h1 h2
    rw [key p]
    exact nhifRaw_band8 h1 h2
  · intro h1 h2
    rw [key p]
    exact nhifRaw_band9 h1 h2
  · intro h1 h2
    rw [key p]
    exact nhifRaw_band10 h1 h2
  · intro h1 h2
    rw [key p]
    exact nhifRaw_band11 h1 h2
  · intro h1 h2
    rw [key p]
    exact nhifRaw_band12 h1 h2
  · intro h1 h2
    rw [key p]
    exact nhifRaw_band13 h1 h2
  · intro h1 h2
    rw [key p]
    exact nhifRaw_band14 h1 h2
  · intro h1 h2
    rw [key p]
    exact nhifRaw_band15 h1 h2
  · intro h1 h2
    rw [key p]
    exact nhifRaw_band16 h1 h2
  · intro h1
    rw [key p]
    exact nhifRaw_band17 h1
  · rw [key q, key p, hq]

unseal Rat.add Rat.mul Rat.inv Rat.sub in
theorem c5_health_levy_bands_witness :
    (0:ℚ) ≤ c1Input.grossPay ∧ (calculatePAYE c1Input).nhif = 1200 :=
  ⟨by decide,
    (c5_health_levy_bands c1Input (by decide)).1.2.2.2.2.2.2.2.2.2.2.2.1
      (by decide) (by decide)⟩

unseal Rat.add Rat.mul Rat.inv Rat.sub in
/-- C4 counterexample: two valid inputs agreeing on every field except
`grossPay` (29999 vs 30000, all toggles off, everything else 0) for
which the larger gross pay yields a strictly smaller income tax: the
health levy jumps 850 → 900 across the band boundary, taxable income
drops 28949 → 28900, and PAYE drops 1237.25 → 1225. -/
theorem c4_monotonicity_counterexample :
    ValidInput bandEdgeInput ∧ ValidInput { bandEdgeInput with grossPay := 30000 } ∧
    bandEdgeInput.grossPay ≤ ({ bandEdgeInput with grossPay := 30000 } : CalcInput).grossPay ∧
    (calculatePAYE { bandEdgeInput with grossPay := 30000 }).paye <
      (calculatePAYE bandEdgeInput).paye := by
  refine ⟨by decide, by decide, by decide, by decide⟩

/-- C4 (amended): with all other fields fixed, raising `grossPay`
never decreases `healthLevyAmount` or `contributionTierAmount`;
`incomeTaxAmount` is dropped from the claim, since it can decrease
across a health-levy band boundary. -/
theorem c4_levies_monotone (p : CalcInput) (g' : ℚ) (_h : ValidInput p)
    (hg : p.grossPay ≤ g') :
    (calculatePAYE p).nhif ≤ (calculatePAYE { p with grossPay := g' }).nhif ∧
    (calculatePAYE p).nssf ≤ (calculatePAYE { p with grossPay := g' }).nssf :=
  ⟨round2_mono (nhifRaw_mono hg),
   round2_mono (nssfRaw_mono p.use2025Tiers p.deductTier2 hg)⟩

unseal Rat.add Rat.mul Rat.inv Rat.sub in
theorem c4_levies_monotone_witness :
    ValidInput c1Input ∧ c1Input.grossPay ≤ 60000 ∧
    ((calculatePAYE c1Input).nhif ≤
        (calculatePAYE { c1Input with grossPay := 60000 }).nhif ∧
     (calculatePAYE c1Input).nssf ≤
        (calculatePAYE { c1Input with grossPay := 60000 }).nssf) :=
  ⟨by decide, by decide, c4_levies_monotone c1Input 60000 (by decide) (by decide)⟩

lemma runAppends_eq (l : List (CalcResult × ℕ)) :
    runAppends l = (l.map mkEntry).reverse := by
  suffices haux : ∀ (l2 : List (CalcResult × ℕ)) (acc : List HistoryEntry),
      l2.foldl (fun h rt => addToHistory rt.1 rt.2 h) acc = (l2.map mkEntry).reverse ++ acc by
    simpa using haux l []
  intro l2
  induction l2 with
  | nil => intro acc; simp
  | cons x xs ih =>
    intro acc
    rw [List.foldl_cons, ih]
    simp [addToHistory, mkEntry]

/-- C6: under a monotone session clock, an entry appended earlier has a
timestamp less than or equal to that of an entry appended later, and the
ledger lists the later entry before the earlier one; in particular after
appends R1, R2, R3 the ledger reads `[R3, R2, R1]`. -/
theorem c6_ledger_ordering :
    (∀ (pre mid post : List (CalcResult × ℕ)) (e1 e2 : CalcResult × ℕ),
      ClockMonotone (pre ++ (e1 :: (mid ++ (e2 :: post)))) →
      e1.2 ≤ e2.2 ∧
        runAppends (pre ++ (e1 :: (mid ++ (e2 :: post)))) =
          (post.map mkEntry).reverse ++ mkEntry e2 ::
            ((mid.map mkEntry).reverse ++ mkEntry e1 :: (pre.map mkEntry).reverse)) ∧
    (∀ (r1 r2 r3 : CalcResult) (t1 t2 t3 : ℕ),
      runAppends [(r1, t1), (r2, t2), (r3, t3)] =
        [{ result := r3, timestamp := t3 }, { result := r2, timestamp := t2 },
          { result := r1, timestamp := t1 }]) := by
  constructor
  · intro pre mid post e1 e2 hclock
    constructor
    · have hp : (pre ++ (e1 :: (mid ++ (e2 :: post)))).Pairwise (fun x y => x.2 ≤ y.2) :=
        List.pairwise_map.mp hclock
      have hp2 := hp.sublist (List.sublist_append_right pre (e1 :: (mid ++ (e2 :: post))))
      exact List.rel_of_pairwise_cons hp2 (by simp)
    · rw [runAppends_eq]
      simp
  · intro r1 r2 r3 t1 t2 t3
    rfl

theorem c6_ledger_ordering_witness :
    ClockMonotone [(calculatePAYE c1Input, 0), (calculatePAYE c1Input, 1)] ∧
    ((calculatePAYE c1Input, (0:ℕ)).2 ≤ (calculatePAYE c1Input, (1:ℕ)).2 ∧
      runAppends [(calculatePAYE c1Input, 0), (calculatePAYE c1Input, 1)] =
        [mkEntry (calculatePAYE c1Input, 1), mkEntry (calculatePAYE c1Input, 0)]) := by
  have hclock : ClockMonotone [(calculatePAYE c1Input, 0), (calculatePAYE c1Input, 1)] := by
    unfold ClockMonotone
    simp
  refine ⟨hclock, ?_⟩
  have h := c6_ledger_ordering.1 [] [] [] (calculatePAYE c1Input, 0)
    (calculatePAYE c1Input, 1) hclock
  exact ⟨h.1, by simpa using h.2⟩

/-- C8: appending to the ledger only conses a fresh entry onto the
front: the previous snapshot is a suffix of the new state, so every
earlier `list()` result keeps its content and order, nothing is
mutated, dropped or merged. -/
theorem c8_append_preserves_snapshots (result : CalcResult) (now : ℕ)
    (history : List HistoryEntry) :
    addToHistory result now history =
      { result := result, timestamp := now } :: history ∧
    List.IsSuffix history (addToHistory result now history) :=
  ⟨rfl, ⟨[{ result := result, timestamp := now }], rfl⟩⟩

/-- C7: every monetary field of the result is produced by one
application of `round2` (2 decimal places, half away from zero) to that
field's final value, with the arithmetic inside each stage (tier sums,
band amounts, bracket math) left unrounded; consequently every
published monetary field is a fixed point of `round2`. -/
theorem c7_rounding_policy (p : CalcInput) (_h : ValidInput p) :
    ((calculatePAYE p).grossPay = round2 p.grossPay ∧
     (calculatePAYE p).benefits = round2 p.benefits ∧
     (calculatePAYE p).pension = round2 p.pension ∧
     (calculatePAYE p).allowableDeductions = round2 p.allowableDeductions ∧
     (calculatePAYE p).housingValue = round2 p.housingValue ∧
     (calculatePAYE p).rent = round2 p.rent ∧
     (calculatePAYE p).taxableBenefits =
       round2 (taxableBenefitsRaw p.ignoreBenefits p.housed p.benefits p.housingValue p.rent) ∧
     (calculatePAYE p).nssf = round2 (nssfRaw p.use2025Tiers p.deductTier2 p.grossPay) ∧
     (calculatePAYE p).nhif = round2 (nhifRaw p.grossPay) ∧
     (calculatePAYE p).ahl = round2 (ahlRaw p.deductAHL p.grossPay) ∧
     (calculatePAYE p).taxableIncome =
       round2 (max 0 (p.grossPay + (calculatePAYE p).taxableBenefits - min p.pension 30000 -
         (calculatePAYE p).nssf - (calculatePAYE p).nhif - (calculatePAYE p).ahl -
         p.allowableDeductions)) ∧
     (calculatePAYE p).paye =
       round2 (max 0 (taxBeforeRelief ((calculatePAYE p).taxableIncome) -
         KRA_MONTHLY_RELIEF)) ∧
     (calculatePAYE p).totalDeductions =
       round2 ((calculatePAYE p).paye + (calculatePAYE p).nssf + (calculatePAYE p).nhif +
         (calculatePAYE p).ahl + p.pension + p.allowableDeductions) ∧
     (calculatePAYE p).netPay = round2 (p.grossPay - (calculatePAYE p).totalDeductions)) ∧
    (∀ x ∈ [(calculatePAYE p).grossPay, (calculatePAYE p).benefits, (calculatePAYE p).pension,
        (calculatePAYE p).allowableDeductions, (calculatePAYE p).housingValue,
        (calculatePAYE p).rent, (calculatePAYE p).taxableBenefits,
        (calculatePAYE p).taxableIncome, (calculatePAYE p).paye, (calculatePAYE p).nssf,
        (calculatePAYE p).nhif, (calculatePAYE p).ahl, (calculatePAYE p).totalDeductions,
        (calculatePAYE p).netPay], round2 x = x) := by
  refine ⟨⟨rfl, rfl, rfl, rfl, rfl, rfl, rfl, rfl, rfl, rfl, rfl, rfl, rfl, rfl⟩, ?_⟩
  intro x hx
  simp only [List.mem_cons, List.not_mem_nil, or_false] at hx
  rcases hx with rfl | rfl | rfl | rfl | rfl | rfl | rfl | rfl | rfl | rfl | rfl | rfl | rfl | rfl
  all_goals exact round2_round2 _

theorem c7_rounding_policy_witness :
    ValidInput c1Input ∧ (calculatePAYE c1Input).grossPay = round2 c1Input.grossPay :=
  ⟨by decide, (c7_rounding_policy c1Input (by decide)).1.1⟩

end ThePaye
